import Mathlib

/-!
Shallow embedding of the CG (center of gravity) calculator of the
RC-Plane-Calculator repository, file `src/pages/CGCalculator.tsx`.

The numeric type of the source (JavaScript `number`) is modelled by `ℚ`;
decimal literals of the source are written as exact rationals
(`0.25 = 1/4`, `0.015 = 3/200`, `2/3` is already exact).  All guards of
the source (`Cr > 0 ? ... : ...`, `b > 0 ? ... : 0`, `sumArea > 0 ? ... : 0`,
`denominator > 0 ? ... : 0`, `wing.area > 0 && wing.mac > 0 ? ... : 0`)
are kept as `if` terms with the same strict comparisons.
-/

/-- One trapezoidal panel of a lifting surface, from `interface WingPanel`
(CGCalculator.tsx lines 7-12).  The `id` field of the source is a React
list key that never enters any computation and is omitted. -/
structure WingPanel where
  tip : ℚ
  sweep : ℚ
  span : ℚ

/-- Result record of `calculateSurface`, from `interface SurfaceAnalysis`
(CGCalculator.tsx lines 14-20).  Its fields are exactly `area`, `span`,
`mac`, `acX`, `rootChord`; the source interface has no further field. -/
structure SurfaceAnalysis where
  area : ℚ
  span : ℚ
  mac : ℚ
  acX : ℚ
  rootChord : ℚ

/-- The taper ratio of one panel, from CGCalculator.tsx line 87:
`const lambda = Cr > 0 ? Ct / Cr : 1;`. -/
def taperRatio (cr ct : ℚ) : ℚ := if 0 < cr then ct / cr else 1

/-- The loop state of `calculateSurface`: the mutable locals
`currentRoot`, `currentX_LE` and the four accumulators of
CGCalculator.tsx lines 67-74. -/
structure SurfAcc where
  root : ℚ
  xLE : ℚ
  sumArea : ℚ
  sumAreaMac : ℚ
  sumAreaAcX : ℚ
  spanHalf : ℚ

/-- One iteration of the `panels.forEach` loop of `calculateSurface`
(CGCalculator.tsx lines 76-115). -/
def surfStep (acc : SurfAcc) (panel : WingPanel) : SurfAcc :=
  let cr := acc.root
  let ct := panel.tip
  let b := panel.span
  let sweep := panel.sweep
  -- 1. Panel area
  let si := ((cr + ct) / 2) * b
  -- 2. Taper ratio
  let lambda := taperRatio cr ct
  -- 3. Panel MAC length
  let maci := (2/3) * cr * ((1 + lambda + lambda ^ 2) / (1 + lambda))
  -- 4. Panel MAC spanwise position, relative to the panel root
  let ymaci := (b / 6) * ((1 + 2 * lambda) / (1 + lambda))
  -- 5. Panel MAC leading-edge X, local then absolute
  let xLocal := if 0 < b then ymaci * (sweep / b) else 0
  let xGlobal := acc.xLE + xLocal
  -- 6. Panel aerodynamic center (25% of panel MAC behind its leading edge)
  let xAci := xGlobal + (1/4) * maci
  { root := ct
    xLE := acc.xLE + sweep
    sumArea := acc.sumArea + si
    sumAreaMac := acc.sumAreaMac + si * maci
    sumAreaAcX := acc.sumAreaAcX + si * xAci
    spanHalf := acc.spanHalf + b }

/-- The surface analyzer `calculateSurface` of CGCalculator.tsx lines 66-128. -/
def calculateSurface (rootChord : ℚ) (panels : List WingPanel) : SurfaceAnalysis :=
  let acc := panels.foldl surfStep
    { root := rootChord, xLE := 0, sumArea := 0, sumAreaMac := 0, sumAreaAcX := 0, spanHalf := 0 }
  { area := acc.sumArea * 2
    span := acc.spanHalf * 2
    mac := if 0 < acc.sumArea then acc.sumAreaMac / acc.sumArea else 0
    acX := if 0 < acc.sumArea then acc.sumAreaAcX / acc.sumArea else 0
    rootChord := rootChord }

/-- The full input snapshot of the calculator page: every piece of React
state read between lines 132 and 155 of CGCalculator.tsx. -/
structure CGInputs where
  isFlyingWing : Bool
  wingRoot : ℚ
  wingPanels : List WingPanel
  tailRoot : ℚ
  tailPanels : List WingPanel
  distWingTail : ℚ
  staticMargin : ℚ
  tailEff : ℚ
  fuseWidth : ℚ
  fuseLength : ℚ
  fuseNose : ℚ

/-- The record returned by the `results` memo (CGCalculator.tsx lines 200-207). -/
structure CGResults where
  wing : SurfaceAnalysis
  tail : SurfaceAnalysis
  npPosition : ℚ
  cgPosition : ℚ
  vBar : ℚ
  fuselagePenalty : ℚ

/-- The `results` computation of CGCalculator.tsx lines 158-208.  The source
computes `cgPosition` once after the topology branch; here it is inlined
into both branches with the identical expression. -/
def results (inp : CGInputs) : CGResults :=
  let wing := calculateSurface inp.wingRoot inp.wingPanels
  if inp.isFlyingWing then
    -- Flying wing: the neutral point is just the wing aerodynamic center
    let tail : SurfaceAnalysis := { area := 0, span := 0, mac := 0, acX := 0, rootChord := 0 }
    let npPosition := wing.acX
    let cgPosition := npPosition - (inp.staticMargin / 100) * wing.mac
    { wing := wing, tail := tail, npPosition := npPosition, cgPosition := cgPosition,
      vBar := 0, fuselagePenalty := 0 }
  else
    let tail := calculateSurface inp.tailRoot inp.tailPanels
    let tailAcXGlobal := inp.distWingTail + tail.acX
    let numerator := wing.acX * wing.area + tailAcXGlobal * tail.area * inp.tailEff
    let denominator := wing.area + tail.area * inp.tailEff
    let npWingTail := if 0 < denominator then numerator / denominator else 0
    -- fuselage penalty: 1.5% of the wing MAC (source literal 0.015)
    let fuselagePenalty := wing.mac * (3/200)
    let npPosition := npWingTail - fuselagePenalty
    let lTail := tailAcXGlobal - wing.acX
    let vBar := if 0 < wing.area ∧ 0 < wing.mac
      then tail.area * lTail / (wing.area * wing.mac) else 0
    let cgPosition := npPosition - (inp.staticMargin / 100) * wing.mac
    { wing := wing, tail := tail, npPosition := npPosition, cgPosition := cgPosition,
      vBar := vBar, fuselagePenalty := fuselagePenalty }

/-- C10: for the empty panel sequence and any root chord, `calculateSurface`
returns area, span, mac and acX all `0` and echoes the root chord. -/
theorem calculateSurface_empty (r : ℚ) :
    calculateSurface r [] = { area := 0, span := 0, mac := 0, acX := 0, rootChord := r } := by
  simp [calculateSurface]

/-- C5: in both topologies the recommended CG equals the neutral point minus
(static margin / 100) times the wing MAC, with no guard applied. -/
theorem cgPosition_policy (inp : CGInputs) :
    (results inp).cgPosition =
      (results inp).npPosition - (inp.staticMargin / 100) * (results inp).wing.mac := by
  cases h : inp.isFlyingWing <;> simp [results, h]

/-- Per-panel quantities named by the specification: the trapezoid area `Si`,
the panel MAC length `MACi` and the panel aerodynamic center `ACi`
(global, i.e. measured from the surface root leading edge). -/
structure PanelProps where
  si : ℚ
  maci : ℚ
  aci : ℚ

/-- The list of per-panel quantities `Si`, `MACi`, `ACi` as the CODE
computes them: the local root chord is chained from the previous panel's
tip chord (the surface root chord for the first panel), and the panel MAC
leading edge is the accumulated sweep plus the sweep-interpolated local
offset; `ACi` adds a quarter of the panel MAC.  Note the guard of the
local offset is the source's `b > 0 ? ... : 0` (CGCalculator.tsx line
97), which zeroes the offset for every `b ≤ 0`; spec §4.1 step 5 instead
zeroes it only when `b = 0` — see `panelPropsSpec` for that reading. -/
def panelProps : ℚ → ℚ → List WingPanel → List PanelProps
  | _, _, [] => []
  | cr, xLE, panel :: ps =>
      let ct := panel.tip
      let b := panel.span
      let sweep := panel.sweep
      let si := ((cr + ct) / 2) * b
      let lambda := taperRatio cr ct
      let maci := (2/3) * cr * ((1 + lambda + lambda ^ 2) / (1 + lambda))
      let ymaci := (b / 6) * ((1 + 2 * lambda) / (1 + lambda))
      let xLocal := if 0 < b then ymaci * (sweep / b) else 0
      let xGlobal := xLE + xLocal
      let aci := xGlobal + (1/4) * maci
      ⟨si, maci, aci⟩ :: panelProps ct (xLE + sweep) ps

/-- The per-panel quantities as §4.1 of the specification words them,
differing from `panelProps` (the code's) in exactly one place: step 5
zeroes the sweep-interpolated local offset `Ymac_i * (s / b)` only when
`b = 0`, not for every `b ≤ 0`.  The taper ratio is the code's
`taperRatio`; its own divergent guard is the subject of claim C6 and
plays no role in the C1 counterexample, whose panels are untapered. -/
def panelPropsSpec : ℚ → ℚ → List WingPanel → List PanelProps
  | _, _, [] => []
  | cr, xLE, panel :: ps =>
      let ct := panel.tip
      let b := panel.span
      let sweep := panel.sweep
      let si := ((cr + ct) / 2) * b
      let lambda := taperRatio cr ct
      let maci := (2/3) * cr * ((1 + lambda + lambda ^ 2) / (1 + lambda))
      let ymaci := (b / 6) * ((1 + 2 * lambda) / (1 + lambda))
      let xLocal := if b = 0 then 0 else ymaci * (sweep / b)
      let xGlobal := xLE + xLocal
      let aci := xGlobal + (1/4) * maci
      ⟨si, maci, aci⟩ :: panelPropsSpec ct (xLE + sweep) ps

/-- On panels whose spans are all nonnegative the spec's and the code's
per-panel quantities coincide: the `b = 0` and `b ≤ 0` readings of the
offset guard differ only on negative-span panels. -/
lemma panelPropsSpec_eq_of_spans_nonneg :
    ∀ (cr xLE : ℚ) (ps : List WingPanel), (∀ p ∈ ps, 0 ≤ p.span) →
      panelPropsSpec cr xLE ps = panelProps cr xLE ps
  | _, _, [], _ => rfl
  | cr, xLE, panel :: ps, h => by
      have hb : 0 ≤ panel.span := h panel (List.mem_cons_self panel ps)
      have ht : panelPropsSpec panel.tip (xLE + panel.sweep) ps
          = panelProps panel.tip (xLE + panel.sweep) ps :=
        panelPropsSpec_eq_of_spans_nonneg panel.tip (xLE + panel.sweep) ps
          (fun q hq => h q (List.mem_cons_of_mem _ hq))
      simp only [panelPropsSpec, panelProps, ht]
      rcases eq_or_lt_of_le hb with hb0 | hb0
      · simp [← hb0]
      · simp [hb0, hb0.ne']

/-- The accumulators built by the `forEach` loop coincide with the sums of
the specification's per-panel quantities, for any starting state. -/
lemma foldl_surfStep_sums :
    ∀ (ps : List WingPanel) (acc : SurfAcc),
      (List.foldl surfStep acc ps).sumArea
          = acc.sumArea + ((panelProps acc.root acc.xLE ps).map PanelProps.si).sum ∧
      (List.foldl surfStep acc ps).spanHalf
          = acc.spanHalf + (ps.map WingPanel.span).sum ∧
      (List.foldl surfStep acc ps).sumAreaMac
          = acc.sumAreaMac + ((panelProps acc.root acc.xLE ps).map (fun q => q.si * q.maci)).sum ∧
      (List.foldl surfStep acc ps).sumAreaAcX
          = acc.sumAreaAcX + ((panelProps acc.root acc.xLE ps).map (fun q => q.si * q.aci)).sum
  | [], acc => by simp [panelProps]
  | panel :: ps, acc => by
      obtain ⟨h1, h2, h3, h4⟩ := foldl_surfStep_sums ps (surfStep acc panel)
      refine ⟨?_, ?_, ?_, ?_⟩
      · rw [List.foldl_cons, h1]
        simp only [surfStep, panelProps, List.map_cons, List.sum_cons]
        ring
      · rw [List.foldl_cons, h2]
        simp only [surfStep, List.map_cons, List.sum_cons]
        ring
      · rw [List.foldl_cons, h3]
        simp only [surfStep, panelProps, List.map_cons, List.sum_cons]
        ring
      · rw [List.foldl_cons, h4]
        simp only [surfStep, panelProps, List.map_cons, List.sum_cons]
        ring

/-- C1 (amended): for every non-empty panel sequence and non-negative root
chord, `calculateSurface` returns `area = 2 * ΣSi`, `span = 2 * Σb`,
`mac = Σ(Si*MACi) / ΣSi` and `acX = Σ(Si*ACi) / ΣSi`, where (a) the two
quotients are guarded by `ΣSi > 0` (the source tests `sumArea > 0`, not
`sumArea = 0`), so for `ΣSi ≤ 0` the returned mac and acX are `0`, and
(b) inside `ACi` the sweep-interpolated local offset is zeroed for every
panel span `b ≤ 0` (the source tests `b > 0`), not only when `b = 0`
(these are the per-panel quantities `panelProps`; on nonnegative spans
they agree with the spec's reading, `panelPropsSpec_eq_of_spans_nonneg`). -/
theorem calculateSurface_aggregates (r : ℚ) (ps : List WingPanel)
    (hne : ps ≠ []) (hr : 0 ≤ r) :
    (calculateSurface r ps).area = 2 * ((panelProps r 0 ps).map PanelProps.si).sum ∧
    (calculateSurface r ps).span = 2 * (ps.map WingPanel.span).sum ∧
    (calculateSurface r ps).mac =
      (if 0 < ((panelProps r 0 ps).map PanelProps.si).sum
       then ((panelProps r 0 ps).map (fun q => q.si * q.maci)).sum
              / ((panelProps r 0 ps).map PanelProps.si).sum
       else 0) ∧
    (calculateSurface r ps).acX =
      (if 0 < ((panelProps r 0 ps).map PanelProps.si).sum
       then ((panelProps r 0 ps).map (fun q => q.si * q.aci)).sum
              / ((panelProps r 0 ps).map PanelProps.si).sum
       else 0) := by
  obtain ⟨h1, h2, h3, h4⟩ :=
    foldl_surfStep_sums ps ⟨r, 0, 0, 0, 0, 0⟩
  refine ⟨?_, ?_, ?_, ?_⟩ <;>
    simp [calculateSurface, h1, h2, h3, h4, mul_comm]

/-- Concrete input showing that claim C1's quotient guard is stated too
weakly: panels `[{tip 1, sweep 0, span 1}, {tip -5, sweep 0, span 1}]`
with root chord `1` give `ΣSi = -1 ≠ 0`, so the claim asserts
`mac = Σ(Si*MACi)/ΣSi = -8`, but the source's `sumArea > 0` guard makes
the code return `mac = 0`. -/
def c1ps : List WingPanel := [⟨1, 0, 1⟩, ⟨-5, 0, 1⟩]

/-- Concrete input showing that claim C1's `ACi` diverges from the code on
negative-span panels: at root chord `1` and panels
`[{tip 1, sweep 0, span 3}, {tip 1, sweep 1, span -1}]` the total panel
area is `ΣSi = 2 > 0`, so both guards on the quotient pass, but the
second panel has span `-1` with sweep `1`: the spec's step 5 (offset `0`
only when `b = 0`) gives `ACi = 1/2` there and `acPosition = 1/8`, while
the code's `b > 0` test zeroes the offset and returns `acX = 1/4`. -/
def c1ps2 : List WingPanel := [⟨1, 0, 3⟩, ⟨1, 1, -1⟩]

/-- C1 counterexample, refuting the claim at two concrete inputs, with the
per-panel quantities read exactly as the spec words them
(`panelPropsSpec`).  At `c1ps` the sum of panel areas is `-1` (nonzero),
the claim's `Σ(Si*MACi)/ΣSi` is `-8`, yet the code returns `mac = 0`
(the guard is `ΣSi > 0`, not `ΣSi = 0`).  At `c1ps2` the sum of panel
areas is `2 > 0` and the claim's `Σ(Si*ACi)/ΣSi` is `1/8`, yet the code
returns `acX = 1/4` (the sweep-interpolated offset is zeroed for
`b ≤ 0`, not only `b = 0`). -/
theorem calculateSurface_aggregates_cex :
    (calculateSurface 1 c1ps).mac = 0 ∧
    ((panelPropsSpec 1 0 c1ps).map PanelProps.si).sum = -1 ∧
    ((panelPropsSpec 1 0 c1ps).map (fun q => q.si * q.maci)).sum
        / ((panelPropsSpec 1 0 c1ps).map PanelProps.si).sum = -8 ∧
    ((0 : ℚ) ≠ -8) ∧
    ((panelPropsSpec 1 0 c1ps2).map PanelProps.si).sum = 2 ∧
    ((panelPropsSpec 1 0 c1ps2).map (fun q => q.si * q.aci)).sum
        / ((panelPropsSpec 1 0 c1ps2).map PanelProps.si).sum = 1/8 ∧
    (calculateSurface 1 c1ps2).acX = 1/4 ∧
    ((1/8 : ℚ) ≠ 1/4) := by
  refine ⟨?_, ?_, ?_, by norm_num, ?_, ?_, ?_, by norm_num⟩ <;>
    norm_num [calculateSurface, surfStep, panelPropsSpec, taperRatio, c1ps, c1ps2]

/-- C1 witness: the amended aggregate law instantiated at root chord `1`
and the single panel `{tip 1, sweep 0, span 1}`. -/
theorem calculateSurface_aggregates_witness :
    ([(⟨1, 0, 1⟩ : WingPanel)] ≠ ([] : List WingPanel)) ∧ ((0 : ℚ) ≤ 1) ∧
    ((calculateSurface 1 [⟨1, 0, 1⟩]).area
        = 2 * ((panelProps 1 0 [⟨1, 0, 1⟩]).map PanelProps.si).sum ∧
     (calculateSurface 1 [⟨1, 0, 1⟩]).span
        = 2 * (([(⟨1, 0, 1⟩ : WingPanel)]).map WingPanel.span).sum ∧
     (calculateSurface 1 [⟨1, 0, 1⟩]).mac =
       (if 0 < ((panelProps 1 0 [⟨1, 0, 1⟩]).map PanelProps.si).sum
        then ((panelProps 1 0 [⟨1, 0, 1⟩]).map (fun q => q.si * q.maci)).sum
               / ((panelProps 1 0 [⟨1, 0, 1⟩]).map PanelProps.si).sum
        else 0) ∧
     (calculateSurface 1 [⟨1, 0, 1⟩]).acX =
       (if 0 < ((panelProps 1 0 [⟨1, 0, 1⟩]).map PanelProps.si).sum
        then ((panelProps 1 0 [⟨1, 0, 1⟩]).map (fun q => q.si * q.aci)).sum
               / ((panelProps 1 0 [⟨1, 0, 1⟩]).map PanelProps.si).sum
        else 0)) :=
  ⟨by simp, by norm_num, calculateSurface_aggregates 1 [⟨1, 0, 1⟩] (by simp) (by norm_num)⟩

/-- The raw neutral point exactly as claim C2 words it: the unguarded
quotient of the weighted aerodynamic centers.  (In Lean a quotient with
denominator `0` is `0`, which matches the claim's clause that `npRaw = 0`
when both areas are `0`.) -/
def npRawSpec (wing tail : SurfaceAnalysis) (d eta : ℚ) : ℚ :=
  (wing.acX * wing.area + (d + tail.acX) * tail.area * eta)
    / (wing.area + tail.area * eta)

/-- C2 (amended): in conventional topology the neutral point is
`npRaw - wing.mac * 0.015` where `npRaw` is the weighted quotient guarded
by `denominator > 0` (the source tests `denominator > 0`, not merely the
both-areas-zero case): whenever `wing.area + tail.area * tailEff ≤ 0` the
code sets `npRaw = 0`. -/
theorem npPosition_conventional (inp : CGInputs) (h : inp.isFlyingWing = false) :
    (results inp).npPosition =
      (if 0 < (calculateSurface inp.wingRoot inp.wingPanels).area
              + (calculateSurface inp.tailRoot inp.tailPanels).area * inp.tailEff
       then ((calculateSurface inp.wingRoot inp.wingPanels).acX
                * (calculateSurface inp.wingRoot inp.wingPanels).area
             + (inp.distWingTail + (calculateSurface inp.tailRoot inp.tailPanels).acX)
                * (calculateSurface inp.tailRoot inp.tailPanels).area * inp.tailEff)
            / ((calculateSurface inp.wingRoot inp.wingPanels).area
               + (calculateSurface inp.tailRoot inp.tailPanels).area * inp.tailEff)
       else 0)
      - (calculateSurface inp.wingRoot inp.wingPanels).mac * (3/200) ∧
    (results inp).fuselagePenalty = (calculateSurface inp.wingRoot inp.wingPanels).mac * (3/200) := by
  constructor <;> simp [results, h]

/-- Concrete conventional input refuting claim C2 as stated: the wing has
negative total area `-8` (one panel with tip chord `-5`), the tail has
area `4`, so the denominator is `-4`; it is nonzero and the areas are not
both zero, hence the claim's formula gives `50 / (-4) = -25/2`, but the
source's `denominator > 0` guard zeroes `npRaw` and the code returns `0`. -/
def c2inp : CGInputs :=
  { isFlyingWing := false
    wingRoot := 1
    wingPanels := [⟨-5, 0, 2⟩]
    tailRoot := 10
    tailPanels := [⟨10, 0, 1/5⟩]
    distWingTail := 10
    staticMargin := 10
    tailEff := 1
    fuseWidth := 8
    fuseLength := 90
    fuseNose := 20 }

/-- C2 counterexample: on `c2inp` the code returns neutral point `0` while
the claim's unguarded formula (minus the same fuselage correction) gives
`-25/2`; the two areas are `-8` and `4`, not both zero. -/
theorem npPosition_conventional_cex :
    (results c2inp).npPosition = 0 ∧
    (calculateSurface c2inp.wingRoot c2inp.wingPanels).area = -8 ∧
    (calculateSurface c2inp.tailRoot c2inp.tailPanels).area = 4 ∧
    npRawSpec (calculateSurface c2inp.wingRoot c2inp.wingPanels)
        (calculateSurface c2inp.tailRoot c2inp.tailPanels) c2inp.distWingTail c2inp.tailEff
      - (calculateSurface c2inp.wingRoot c2inp.wingPanels).mac * (3/200) = -25/2 ∧
    (0 : ℚ) ≠ -25/2 := by
  refine ⟨?_, ?_, ?_, ?_, by norm_num⟩ <;>
    norm_num [results, calculateSurface, surfStep, taperRatio, npRawSpec, c2inp]

/-- C2 witness: the amended neutral-point law instantiated at the default
inputs of the page (conventional topology). -/
theorem npPosition_conventional_witness :
    ((⟨false, 25, [⟨18, 4, 40⟩, ⟨10, 8, 30⟩], 12, [⟨8, 3, 25⟩], 65, 10, 9/10, 8, 90, 20⟩ :
        CGInputs).isFlyingWing = false) ∧
    ((results ⟨false, 25, [⟨18, 4, 40⟩, ⟨10, 8, 30⟩], 12, [⟨8, 3, 25⟩], 65, 10, 9/10, 8, 90, 20⟩).npPosition =
      (if 0 < (calculateSurface 25 [⟨18, 4, 40⟩, ⟨10, 8, 30⟩]).area
              + (calculateSurface 12 [⟨8, 3, 25⟩]).area * (9/10)
       then ((calculateSurface 25 [⟨18, 4, 40⟩, ⟨10, 8, 30⟩]).acX
                * (calculateSurface 25 [⟨18, 4, 40⟩, ⟨10, 8, 30⟩]).area
             + (65 + (calculateSurface 12 [⟨8, 3, 25⟩]).acX)
                * (calculateSurface 12 [⟨8, 3, 25⟩]).area * (9/10))
            / ((calculateSurface 25 [⟨18, 4, 40⟩, ⟨10, 8, 30⟩]).area
               + (calculateSurface 12 [⟨8, 3, 25⟩]).area * (9/10))
       else 0)
      - (calculateSurface 25 [⟨18, 4, 40⟩, ⟨10, 8, 30⟩]).mac * (3/200) ∧
     (results ⟨false, 25, [⟨18, 4, 40⟩, ⟨10, 8, 30⟩], 12, [⟨8, 3, 25⟩], 65, 10, 9/10, 8, 90, 20⟩).fuselagePenalty
       = (calculateSurface 25 [⟨18, 4, 40⟩, ⟨10, 8, 30⟩]).mac * (3/200)) :=
  ⟨rfl, npPosition_conventional
    ⟨false, 25, [⟨18, 4, 40⟩, ⟨10, 8, 30⟩], 12, [⟨8, 3, 25⟩], 65, 10, 9/10, 8, 90, 20⟩ rfl⟩

/-- C3: in flying-wing topology the neutral point equals the wing's
aerodynamic center, the tail volume coefficient and the fuselage penalty
are `0`, and the tail inputs (root chord and panels) have no influence on
any output. -/
theorem flyingWing_neutralPoint (inp : CGInputs) (h : inp.isFlyingWing = true) :
    (results inp).npPosition = (calculateSurface inp.wingRoot inp.wingPanels).acX ∧
    (results inp).vBar = 0 ∧
    (results inp).fuselagePenalty = 0 ∧
    ∀ (tr : ℚ) (tps : List WingPanel),
      results { inp with tailRoot := tr, tailPanels := tps } = results inp := by
  cases inp
  simp only at h
  subst h
  refine ⟨?_, ?_, ?_, fun tr tps => ?_⟩ <;> simp [results]

/-- C3 witness: the flying-wing law instantiated at concrete inputs, with a
concrete change of the tail data leaving the result unchanged. -/
theorem flyingWing_neutralPoint_witness :
    ((⟨true, 25, [⟨10, 8, 70⟩], 12, [⟨8, 3, 25⟩], 65, 10, 9/10, 8, 90, 20⟩ :
        CGInputs).isFlyingWing = true) ∧
    ((results ⟨true, 25, [⟨10, 8, 70⟩], 12, [⟨8, 3, 25⟩], 65, 10, 9/10, 8, 90, 20⟩).npPosition
        = (calculateSurface 25 [⟨10, 8, 70⟩]).acX ∧
     (results ⟨true, 25, [⟨10, 8, 70⟩], 12, [⟨8, 3, 25⟩], 65, 10, 9/10, 8, 90, 20⟩).vBar = 0 ∧
     (results ⟨true, 25, [⟨10, 8, 70⟩], 12, [⟨8, 3, 25⟩], 65, 10, 9/10, 8, 90, 20⟩).fuselagePenalty = 0 ∧
     ∀ (tr : ℚ) (tps : List WingPanel),
       results { (⟨true, 25, [⟨10, 8, 70⟩], 12, [⟨8, 3, 25⟩], 65, 10, 9/10, 8, 90, 20⟩ : CGInputs) with
                   tailRoot := tr, tailPanels := tps }
         = results ⟨true, 25, [⟨10, 8, 70⟩], 12, [⟨8, 3, 25⟩], 65, 10, 9/10, 8, 90, 20⟩) :=
  ⟨rfl, flyingWing_neutralPoint
    ⟨true, 25, [⟨10, 8, 70⟩], 12, [⟨8, 3, 25⟩], 65, 10, 9/10, 8, 90, 20⟩ rfl⟩

/-- The tail volume coefficient exactly as claim C4 words it: the unguarded
quotient `(tail.area * lTail) / (wing.area * wing.mac)` with
`lTail = (d + tail.acX) - wing.acX`. -/
def vBarSpec (wing tail : SurfaceAnalysis) (d : ℚ) : ℚ :=
  tail.area * ((d + tail.acX) - wing.acX) / (wing.area * wing.mac)

/-- C4 (amended): in conventional topology the tail volume coefficient is
the quotient `(tail.area * lTail) / (wing.area * wing.mac)` guarded by
`wing.area > 0 ∧ wing.mac > 0` (the source tests both with `>`, not `=`):
whenever the wing area or the wing MAC is not strictly positive the code
returns `0`. -/
theorem vBar_conventional (inp : CGInputs) (h : inp.isFlyingWing = false) :
    (results inp).vBar =
      (if 0 < (calculateSurface inp.wingRoot inp.wingPanels).area
          ∧ 0 < (calculateSurface inp.wingRoot inp.wingPanels).mac
       then (calculateSurface inp.tailRoot inp.tailPanels).area
              * ((inp.distWingTail + (calculateSurface inp.tailRoot inp.tailPanels).acX)
                 - (calculateSurface inp.wingRoot inp.wingPanels).acX)
              / ((calculateSurface inp.wingRoot inp.wingPanels).area
                 * (calculateSurface inp.wingRoot inp.wingPanels).mac)
       else 0) := by
  simp [results, h]

/-- Concrete conventional input refuting claim C4 as stated: the wing panels
`[{tip 1, sweep 0, span 1}, {tip 3, sweep 0, span -2/5}]` with root chord
`1` give wing area `2/5 ≠ 0` and wing MAC `-11/3 ≠ 0`, so the claim
asserts the quotient value, but the source's `wing.mac > 0` test fails
and the code returns `0`. -/
def c4inp : CGInputs :=
  { isFlyingWing := false
    wingRoot := 1
    wingPanels := [⟨1, 0, 1⟩, ⟨3, 0, -2/5⟩]
    tailRoot := 10
    tailPanels := [⟨10, 0, 1/5⟩]
    distWingTail := 10
    staticMargin := 10
    tailEff := 9/10
    fuseWidth := 8
    fuseLength := 90
    fuseNose := 20 }

/-- C4 counterexample: on `c4inp` the wing area is `2/5` and the wing MAC is
`-11/3`, both nonzero, the claim's formula evaluates to `-805/22 ≠ 0`,
yet the code returns `vBar = 0`. -/
theorem vBar_conventional_cex :
    (results c4inp).vBar = 0 ∧
    (calculateSurface c4inp.wingRoot c4inp.wingPanels).area = 2/5 ∧
    (calculateSurface c4inp.wingRoot c4inp.wingPanels).mac = -11/3 ∧
    vBarSpec (calculateSurface c4inp.wingRoot c4inp.wingPanels)
        (calculateSurface c4inp.tailRoot c4inp.tailPanels) c4inp.distWingTail = -805/22 ∧
    (0 : ℚ) ≠ -805/22 := by
  refine ⟨?_, ?_, ?_, ?_, by norm_num⟩ <;>
    norm_num [results, calculateSurface, surfStep, taperRatio, vBarSpec, c4inp]

/-- C4 witness: the amended tail-volume law instantiated at the default
inputs of the page (conventional topology). -/
theorem vBar_conventional_witness :
    ((⟨false, 25, [⟨18, 4, 40⟩, ⟨10, 8, 30⟩], 12, [⟨8, 3, 25⟩], 65, 10, 9/10, 8, 90, 20⟩ :
        CGInputs).isFlyingWing = false) ∧
    (results ⟨false, 25, [⟨18, 4, 40⟩, ⟨10, 8, 30⟩], 12, [⟨8, 3, 25⟩], 65, 10, 9/10, 8, 90, 20⟩).vBar =
      (if 0 < (calculateSurface 25 [⟨18, 4, 40⟩, ⟨10, 8, 30⟩]).area
          ∧ 0 < (calculateSurface 25 [⟨18, 4, 40⟩, ⟨10, 8, 30⟩]).mac
       then (calculateSurface 12 [⟨8, 3, 25⟩]).area
              * ((65 + (calculateSurface 12 [⟨8, 3, 25⟩]).acX)
                 - (calculateSurface 25 [⟨18, 4, 40⟩, ⟨10, 8, 30⟩]).acX)
              / ((calculateSurface 25 [⟨18, 4, 40⟩, ⟨10, 8, 30⟩]).area
                 * (calculateSurface 25 [⟨18, 4, 40⟩, ⟨10, 8, 30⟩]).mac)
       else 0) :=
  ⟨rfl, vBar_conventional
    ⟨false, 25, [⟨18, 4, 40⟩, ⟨10, 8, 30⟩], 12, [⟨8, 3, 25⟩], 65, 10, 9/10, 8, 90, 20⟩ rfl⟩

/-- The taper ratio exactly as claim C6 words it: `Ct / Cr`, with the
override to `1` exactly when `Cr = 0` and only then.  (Second definition
for comparison with `taperRatio`, which is the source's formula.) -/
def taperRatioSpec (cr ct : ℚ) : ℚ := if cr = 0 then 1 else ct / cr

/-- C6 (amended): the taper ratio used by the code is `Ct / Cr` when
`Cr > 0` and is set to `1` whenever `Cr ≤ 0` — that is, also for negative
`Cr`, not only for `Cr = 0`; on a single panel whose area is positive the
surface MAC is the panel MAC formula evaluated at this taper ratio. -/
theorem taperRatio_guard (cr ct : ℚ) :
    (0 < cr → taperRatio cr ct = ct / cr) ∧
    (cr ≤ 0 → taperRatio cr ct = 1) ∧
    (∀ s b : ℚ, 0 < ((cr + ct) / 2) * b →
      (calculateSurface cr [⟨ct, s, b⟩]).mac
        = (2/3) * cr * ((1 + taperRatio cr ct + taperRatio cr ct ^ 2)
            / (1 + taperRatio cr ct))) := by
  refine ⟨fun h => by simp [taperRatio, h], fun h => by simp [taperRatio, not_lt.mpr h],
    fun s b hb => ?_⟩
  have hs : ((cr + ct) / 2) * b ≠ 0 := ne_of_gt hb
  simp only [calculateSurface, List.foldl_cons, List.foldl_nil, surfStep]
  norm_num [hb]
  rw [mul_comm (((cr + ct) / 2) * b)]
  exact mul_div_cancel_right₀ _ hs

/-- C6 counterexample: at local root chord `-1` (negative, nonzero) and tip
chord `3` the code uses taper ratio `1`, not the claim's `Ct / Cr = -3`;
the two choices are observable in the returned MAC of the single panel
`{tip 3, sweep 0, span 2}`: the code returns `-1`, the claim's taper
ratio would give `7/3`. -/
theorem taperRatio_guard_cex :
    taperRatio (-1) 3 = 1 ∧
    taperRatioSpec (-1) 3 = -3 ∧
    ((-1 : ℚ) ≠ 0) ∧
    taperRatio (-1) 3 ≠ taperRatioSpec (-1) 3 ∧
    (calculateSurface (-1) [⟨3, 0, 2⟩]).mac = -1 ∧
    (2/3 : ℚ) * (-1) * ((1 + taperRatioSpec (-1) 3 + taperRatioSpec (-1) 3 ^ 2)
        / (1 + taperRatioSpec (-1) 3)) = 7/3 ∧
    ((-1 : ℚ) ≠ 7/3) := by
  refine ⟨?_, ?_, by norm_num, ?_, ?_, ?_, by norm_num⟩ <;>
    norm_num [calculateSurface, surfStep, taperRatio, taperRatioSpec]

/-- C6 witness: the amended taper-ratio law instantiated at `Cr = 2, Ct = 1`
(the quotient case), at `Cr = -1, Ct = 5` (the override case), and at the
single panel `{tip 1, sweep 0, span 1}` for the MAC link. -/
theorem taperRatio_guard_witness :
    ((0 : ℚ) < 2) ∧ ((-1 : ℚ) ≤ 0) ∧ ((0 : ℚ) < ((2 + 1) / 2) * 1) ∧
    taperRatio 2 1 = 1 / 2 ∧
    taperRatio (-1) 5 = 1 ∧
    (calculateSurface 2 [⟨1, 0, 1⟩]).mac
      = (2/3) * 2 * ((1 + taperRatio 2 1 + taperRatio 2 1 ^ 2) / (1 + taperRatio 2 1)) :=
  ⟨by norm_num, by norm_num, by norm_num,
   (taperRatio_guard 2 1).1 (by norm_num),
   (taperRatio_guard (-1) 5).2.1 (by norm_num),
   (taperRatio_guard 2 1).2.2 0 1 (by norm_num)⟩

/-- Division-safety check mirroring the division sites of `calculateSurface`.
Per panel, the divisions of the source are: `Si`'s `/ 2` (constant
denominator), `Ct / Cr` (guarded by `Cr > 0`), `sweep / b` (guarded by
`b > 0`), and the final `/ sumArea` (guarded by `sumArea > 0`) — all of
these have nonzero denominators whenever evaluated.  The one denominator
with no guard in the source is `1 + lambda`, shared by the `MACi` and
`Y_mac_i` formulas; this check walks the chained root chords and demands
it be nonzero for every panel.  In IEEE arithmetic a zero `1 + lambda`
makes `MACi` infinite and the accumulated `mac` NaN, which is exactly the
non-finiteness claim C7 rules out. -/
def surfaceDivSafe : ℚ → List WingPanel → Bool
  | _, [] => true
  | cr, panel :: ps =>
      if 1 + taperRatio cr panel.tip = 0 then false
      else surfaceDivSafe panel.tip ps

/-- All divisions of `calculateSurface` have nonzero denominators when the
root chord and every tip chord are nonnegative. -/
lemma surfaceDivSafe_of_nonneg :
    ∀ (cr : ℚ) (ps : List WingPanel), 0 ≤ cr → (∀ p ∈ ps, 0 ≤ p.tip) →
      surfaceDivSafe cr ps = true
  | _, [], _, _ => rfl
  | cr, panel :: ps, hcr, hps => by
      have htip : 0 ≤ panel.tip := hps panel (List.mem_cons_self panel ps)
      have hden : (1 : ℚ) + taperRatio cr panel.tip ≠ 0 := by
        unfold taperRatio
        split
        · next h => have := div_nonneg htip (le_of_lt h); linarith
        · norm_num
      rw [surfaceDivSafe, if_neg hden]
      exact surfaceDivSafe_of_nonneg panel.tip ps htip
        (fun q hq => hps q (List.mem_cons_of_mem _ hq))

/-- C7 (amended): for root chord `0` and any panel sequence whose tip chords
are all nonnegative, every division performed by `calculateSurface` has a
nonzero denominator, so the returned `mac`, `acX` and `area` are finite. -/
theorem surface_divisions_guarded (ps : List WingPanel)
    (h : ∀ p ∈ ps, 0 ≤ p.tip) : surfaceDivSafe 0 ps = true :=
  surfaceDivSafe_of_nonneg 0 ps le_rfl h

/-- C7 counterexample: with root chord `0` and panels
`[{tip 1, sweep 0, span 1}, {tip -1, sweep 0, span 1}]` the second panel
has local root chord `1` and taper ratio `-1`, so the unguarded
denominator `1 + lambda` of the `MACi` formula is `0`: the computation
divides by zero (in the source's float arithmetic `MACi` is infinite and
the returned `mac` is NaN). -/
theorem surface_divisions_guarded_cex :
    taperRatio 1 (-1) = -1 ∧
    1 + taperRatio 1 (-1) = 0 ∧
    surfaceDivSafe 0 [⟨1, 0, 1⟩, ⟨-1, 0, 1⟩] = false := by
  refine ⟨?_, ?_, ?_⟩ <;> norm_num [surfaceDivSafe, taperRatio]

/-- C7 witness: the amended division-safety law instantiated at the single
panel `{tip 1, sweep 0, span 1}`, whose tip chord is nonnegative. -/
theorem surface_divisions_guarded_witness :
    (∀ p ∈ [(⟨1, 0, 1⟩ : WingPanel)], 0 ≤ p.tip) ∧
    surfaceDivSafe 0 [⟨1, 0, 1⟩] = true :=
  ⟨by intro p hp; rw [List.mem_singleton] at hp; subst hp; norm_num,
   surface_divisions_guarded [⟨1, 0, 1⟩]
     (by intro p hp; rw [List.mem_singleton] at hp; subst hp; norm_num)⟩

/-- The aspect ratio as the specification words it: `span^2 / area`, `0`
when `area = 0`.  The source computes no such value: the returned record
(see `SurfaceAnalysis`) has exactly the fields `area`, `span`, `mac`,
`acX` and `rootChord`; this definition follows the spec's words so the
claimed field can be compared with every component the code returns. -/
def specAspectRatio (a : SurfaceAnalysis) : ℚ :=
  if a.area = 0 then 0 else a.span ^ 2 / a.area

/-- C8 counterexample: for the page's default wing (root chord `25`, panels
`[{18,4,40},{10,8,30}]`) the spec's aspect ratio is
`140^2 / 2560 = 245/32`, but no component of the record the code returns
has that value — the result carries no aspect-ratio field. -/
theorem aspectRatio_field_cex :
    specAspectRatio (calculateSurface 25 [⟨18, 4, 40⟩, ⟨10, 8, 30⟩]) = 245/32 ∧
    (calculateSurface 25 [⟨18, 4, 40⟩, ⟨10, 8, 30⟩]).area ≠ 245/32 ∧
    (calculateSurface 25 [⟨18, 4, 40⟩, ⟨10, 8, 30⟩]).span ≠ 245/32 ∧
    (calculateSurface 25 [⟨18, 4, 40⟩, ⟨10, 8, 30⟩]).mac ≠ 245/32 ∧
    (calculateSurface 25 [⟨18, 4, 40⟩, ⟨10, 8, 30⟩]).acX ≠ 245/32 ∧
    (calculateSurface 25 [⟨18, 4, 40⟩, ⟨10, 8, 30⟩]).rootChord ≠ 245/32 := by
  refine ⟨?_, ?_, ?_, ?_, ?_, ?_⟩ <;>
    norm_num [specAspectRatio, calculateSurface, surfStep, taperRatio]

/-- C8 (amended): the analysis result includes no aspect-ratio field, but
the value the spec describes is derivable from the returned record: the
spec's `span^2 / area` quotient satisfies its defining equation whenever
`area ≠ 0`, and is `0` when `area = 0`. -/
theorem aspectRatio_derivable (r : ℚ) (ps : List WingPanel) :
    ((calculateSurface r ps).area = 0 →
      specAspectRatio (calculateSurface r ps) = 0) ∧
    ((calculateSurface r ps).area ≠ 0 →
      specAspectRatio (calculateSurface r ps) * (calculateSurface r ps).area
        = (calculateSurface r ps).span ^ 2) := by
  constructor
  · intro h; simp [specAspectRatio, h]
  · intro h
    rw [specAspectRatio, if_neg h]
    exact div_mul_cancel₀ _ h

/-- C8 witness: the derived aspect ratio at the default wing, whose area
`2560` is nonzero. -/
theorem aspectRatio_derivable_witness :
    ((calculateSurface 25 [⟨18, 4, 40⟩, ⟨10, 8, 30⟩]).area ≠ 0) ∧
    specAspectRatio (calculateSurface 25 [⟨18, 4, 40⟩, ⟨10, 8, 30⟩])
        * (calculateSurface 25 [⟨18, 4, 40⟩, ⟨10, 8, 30⟩]).area
      = (calculateSurface 25 [⟨18, 4, 40⟩, ⟨10, 8, 30⟩]).span ^ 2 :=
  ⟨by norm_num [calculateSurface, surfStep, taperRatio],
   (aspectRatio_derivable 25 [⟨18, 4, 40⟩, ⟨10, 8, 30⟩]).2
     (by norm_num [calculateSurface, surfStep, taperRatio])⟩

/-- C9: the three fuselage inputs (width, length, nose overhang) have no
influence on any computed output, in either topology; the fuselage
penalty depends only on the wing MAC (it is `wing.mac * 0.015` in
conventional topology and `0` for a flying wing). -/
theorem fuselage_inputs_noninterference (inp : CGInputs) (w l n : ℚ) :
    results { inp with fuseWidth := w, fuseLength := l, fuseNose := n } = results inp ∧
    (results inp).fuselagePenalty =
      (if inp.isFlyingWing then 0
       else (calculateSurface inp.wingRoot inp.wingPanels).mac * (3/200)) := by
  refine ⟨?_, ?_⟩
  · cases inp; rfl
  · cases h : inp.isFlyingWing <;> simp [results, h]
